import Mathlib

/-!
Verification of the MOD09A1 Ren-method glacier albedo pipeline.

This file embeds, per pixel, the operations of the repository that the
verified properties concern:

* the Earth Engine elementwise algebra the code is written against
  (addition, subtraction, multiplication, division with the documented
  division-by-zero convention, comparison producing 0/1, and the
  conditional-replacement operation where, all of which propagate the
  validity mask), modelled on Option values over the rationals;
* quality_filter_mod09a1 and its parameter presets
  (utils/quality_filters.py);
* quality_filter_mod10a1 (utils/quality_filters.py) and the two-band
  MOD10A1 filter of methods/mod10a1_method.py that
  process_mod10a1_method applies (get_basic_qa_mask,
  get_algorithm_flags_mask, create_comprehensive_quality_mask and its
  standard and relaxed configurations);
* classify_snow_ice, the narrow-band merge of process_ren_method,
  compute_broadband_albedo, the BRDF anisotropy term of
  apply_brdf_anisotropic_correction, and the correction-factor division
  of topography_correction (methods/ren_method.py), with the literal
  empirical coefficients of config/settings.py.

A value of type Option Rat is one pixel of one band: none is a masked
(invalid) pixel, some x a valid pixel holding x.
-/

/-- Earth Engine division convention on scalars: division by zero
returns 0 (documented behaviour of the divide operation). -/
def eeDiv (a b : ℚ) : ℚ := if b = 0 then 0 else a / b

/-- Lift a binary scalar operation to masked pixels: the result is
masked when either operand is masked. -/
def opt2 (f : ℚ → ℚ → ℚ) : Option ℚ → Option ℚ → Option ℚ
  | some a, some b => some (f a b)
  | _, _ => none

/-- Elementwise add with mask propagation. -/
def eeAdd : Option ℚ → Option ℚ → Option ℚ := opt2 (· + ·)

/-- Elementwise subtract with mask propagation. -/
def eeSub : Option ℚ → Option ℚ → Option ℚ := opt2 (· - ·)

/-- Elementwise divide with mask propagation and the division-by-zero
convention of eeDiv. -/
def eeDivO : Option ℚ → Option ℚ → Option ℚ := opt2 eeDiv

/-- Multiply a band by a scalar constant (constants are never masked). -/
def eeMulC (a : Option ℚ) (c : ℚ) : Option ℚ := a.map (fun x => x * c)

/-- Elementwise strict comparison against a constant, producing the
0/1 encoding the backend uses for boolean bands. -/
def eeGt (a : Option ℚ) (t : ℚ) : Option ℚ :=
  a.map (fun x => if t < x then 1 else 0)

/-- The conditional-replacement operation input.where(test, value):
where the input is masked the output is masked (the base mask
propagates); where the test is masked the input is kept; where the test
is nonzero the value pixel is taken, else the input pixel. -/
def eeWhere (input test value : Option ℚ) : Option ℚ :=
  match input with
  | none => none
  | some a =>
    match test with
    | none => some a
    | some t => if t = 0 then some a else value

/-!
## quality_filter_mod09a1 (utils/quality_filters.py, lines 74 to 135)

The state_1km QA word is a natural number; SolarZenith is the raw
scaled integer band value, descaled by 0.01 inside the filter.
-/

/-- Cloud state criterion: qa.bitwiseAnd(0x3).lte(cloud_state_threshold). -/
def clearSky (cloudThr : ℤ) (qa : ℕ) : Bool :=
  decide (((qa &&& 3 : ℕ) : ℤ) ≤ cloudThr)

/-- Cloud shadow criterion: qa.bitwiseAnd(1 shl 2).eq(0). -/
def shadowFree (qa : ℕ) : Bool := decide (qa &&& (1 <<< 2) = 0)

/-- Cirrus criterion as implemented: qa.bitwiseAnd(1 shl 8).lte(cirrus_threshold).
Only bit 8 is read; the masked value is 0 or 256. -/
def noCirrus (cirrusThr : ℤ) (qa : ℕ) : Bool :=
  decide (((qa &&& (1 <<< 8) : ℕ) : ℤ) ≤ cirrusThr)

/-- Internal cloud criterion: qa.bitwiseAnd(1 shl 10).eq(0). -/
def clearInternal (qa : ℕ) : Bool := decide (qa &&& (1 <<< 10) = 0)

/-- Snow and ice confidence field: qa.bitwiseAnd(0x3000).rightShift(12). -/
def snowIceConf (qa : ℕ) : ℕ := (qa &&& 0x3000) >>> 12

/-- Snow and ice confidence criterion: snowIceConf.gt(snow_ice_min). -/
def validSnowIce (snowIceMin : ℤ) (qa : ℕ) : Bool :=
  decide (snowIceMin < (snowIceConf qa : ℤ))

/-- Solar zenith criterion: SolarZenith.multiply(0.01).lt(solar_zenith_max). -/
def lowSZA (szaMax : ℚ) (szRaw : ℤ) : Bool :=
  decide ((szRaw : ℚ) * 0.01 < szaMax)

/-- The combined MOD09A1 validity mask for one pixel, for an arbitrary
parameter set, mirroring the conjunction built in lines 102 to 133:
the four always-on criteria, then the shadow criterion unless
allow_shadow, then the internal-cloud criterion if use_internal_cloud. -/
def mod09a1Mask (cloudThr : ℤ) (allowShadow : Bool) (cirrusThr : ℤ)
    (useInternal : Bool) (snowIceMin : ℤ) (szaMax : ℚ)
    (qa : ℕ) (szRaw : ℤ) : Bool :=
  let base := clearSky cloudThr qa && noCirrus cirrusThr qa
      && validSnowIce snowIceMin qa && lowSZA szaMax szRaw
  let withShadow := if allowShadow then base else base && shadowFree qa
  if useInternal then withShadow && clearInternal qa else withShadow

/-- quality_filter_mod09a1 with its two built-in parameter sets: the
strict defaults (relaxed false) and the glacier-optimized relaxed
defaults (relaxed true), as literally written in lines 77 to 96. -/
def quality_filter_mod09a1 (relaxed : Bool) (qa : ℕ) (szRaw : ℤ) : Bool :=
  if relaxed then mod09a1Mask 1 false 0 false 0 75 qa szRaw
  else mod09a1Mask 0 false 0 true 0 70 qa szRaw

/-- The moderate preset of create_relaxed_filter_preset, as the tuple
(cloud_state_threshold, allow_shadow, cirrus_threshold,
use_internal_cloud, snow_ice_min, solar_zenith_max). -/
def moderatePreset : ℤ × Bool × ℤ × Bool × ℤ × ℚ := (1, false, 1, true, 0, 80)

/-- The maximum preset of create_relaxed_filter_preset. -/
def maximumPreset : ℤ × Bool × ℤ × Bool × ℤ × ℚ := (2, false, 2, false, -1, 85)

/-- The glacier_optimized preset of create_relaxed_filter_preset. -/
def glacierOptimizedPreset : ℤ × Bool × ℤ × Bool × ℤ × ℚ :=
  (1, false, 0, false, 0, 75)

/-!
## quality_filter_mod10a1 (utils/quality_filters.py, lines 138 to 198)

The code selects the single band NDSI_Snow_Cover_Algorithm_Flags_QA,
takes bits 0 and 1 of it as the basic level, and tests bits 0 to 7 of
the same word as the eight toggleable exclusion flags.
-/

/-- The MOD10A1 validity mask for one pixel, for the basic acceptance
level and the eight exclusion toggles of the configuration dictionary,
in the order the code applies them. -/
def mod10a1Mask (basicMax : ℕ)
    (exIW exVS exND exTH exSW exPC exPL exHZ : Bool) (qa : ℕ) : Bool :=
  let m0 := decide (qa &&& 3 ≤ basicMax)
  let m1 := if exIW then m0 && decide (qa &&& 1 = 0) else m0
  let m2 := if exVS then m1 && decide (qa &&& 2 = 0) else m1
  let m3 := if exND then m2 && decide (qa &&& 4 = 0) else m2
  let m4 := if exTH then m3 && decide (qa &&& 8 = 0) else m3
  let m5 := if exSW then m4 && decide (qa &&& 16 = 0) else m4
  let m6 := if exPC then m5 && decide (qa &&& 32 = 0) else m5
  let m7 := if exPL then m6 && decide (qa &&& 64 = 0) else m6
  if exHZ then m7 && decide (qa &&& 128 = 0) else m7

/-!
## The two-band MOD10A1 filter of methods/mod10a1_method.py
(lines 69 to 170)

This is the filter process_mod10a1_method actually applies. It reads
two independent QA bands: NDSI_Snow_Cover_Basic_QA, carrying the basic
quality tier plus the night (211) and ocean (239) sentinel codes, and
NDSI_Snow_Cover_Algorithm_Flags_QA, carrying the eight flag bits.
-/

/-- The quality level names get_basic_qa_mask dispatches on. -/
inductive QALevel
  | best
  | good
  | ok
  | all

/-- The level-dependent threshold test of get_basic_qa_mask: eq(0) for
best, lte(1) for good (the default), lte(2) for ok, lte(3) for all. -/
def basicLevelPass (level : QALevel) (basicQA : ℕ) : Bool :=
  match level with
  | QALevel.best => decide (basicQA = 0)
  | QALevel.good => decide (basicQA ≤ 1)
  | QALevel.ok => decide (basicQA ≤ 2)
  | QALevel.all => decide (basicQA ≤ 3)

/-- get_basic_qa_mask: the level-dependent quality mask conjoined with
the exclusion mask neq(211).And(neq(239)) that always removes the night
and ocean codes, whatever the accepted level. -/
def get_basic_qa_mask (level : QALevel) (basicQA : ℕ) : Bool :=
  basicLevelPass level basicQA
    && (decide (basicQA ≠ 211) && decide (basicQA ≠ 239))

/-- get_algorithm_flags_mask: starting from the constant mask 1, each
enabled flag of the bit mapping conjoins the test that its bit of the
algorithm-flags word is clear, in bit order 0 to 7. -/
def get_algorithm_flags_mask
    (eIW eVS eND eTH eSW ePC ePL eHZ : Bool) (algQA : ℕ) : Bool :=
  let m0 := true
  let m1 := if eIW then m0 && decide (algQA &&& 1 = 0) else m0
  let m2 := if eVS then m1 && decide (algQA &&& 2 = 0) else m1
  let m3 := if eND then m2 && decide (algQA &&& 4 = 0) else m2
  let m4 := if eTH then m3 && decide (algQA &&& 8 = 0) else m3
  let m5 := if eSW then m4 && decide (algQA &&& 16 = 0) else m4
  let m6 := if ePC then m5 && decide (algQA &&& 32 = 0) else m5
  let m7 := if ePL then m6 && decide (algQA &&& 64 = 0) else m6
  if eHZ then m7 && decide (algQA &&& 128 = 0) else m7

/-- create_comprehensive_quality_mask: the basic QA mask conjoined with
the algorithm flags mask. -/
def create_comprehensive_quality_mask (level : QALevel)
    (eIW eVS eND eTH eSW ePC ePL eHZ : Bool)
    (basicQA algQA : ℕ) : Bool :=
  get_basic_qa_mask level basicQA
    && get_algorithm_flags_mask eIW eVS eND eTH eSW ePC ePL eHZ algQA

/-- create_standard_quality_mask: the comprehensive mask at the
QA_CONFIG STANDARD dictionary (level good, every exclusion enabled
except probably-clear). -/
def create_standard_quality_mask (basicQA algQA : ℕ) : Bool :=
  create_comprehensive_quality_mask QALevel.good
    true true true true true true false true basicQA algQA

/-- create_relaxed_quality_mask: the comprehensive mask at the
QA_CONFIG_RELAXED dictionary (level ok, only the two critical screen
failure exclusions enabled). -/
def create_relaxed_quality_mask (basicQA algQA : ℕ) : Bool :=
  create_comprehensive_quality_mask QALevel.ok
    false true true false false false false false basicQA algQA

/-!
## classify_snow_ice (methods/ren_method.py, lines 222 to 265)

One pixel of the image entering classification carries the two
topography-corrected bands the classifier prefers, the two raw bands it
falls back to, and the band-presence facts the code queries through
bandNames().contains.
-/

/-- Per-pixel view of the bands classify_snow_ice reads. -/
structure ClassifyPixel where
  hasTopoGreen : Bool
  hasTopoSwir : Bool
  topoB4 : Option ℚ
  topoB6 : Option ℚ
  rawB4 : Option ℚ
  rawB7 : Option ℚ

/-- Green input to the NDSI: sur_refl_b04_topo when present, else the
raw sur_refl_b04 descaled by 0.0001. -/
def greenBand (p : ClassifyPixel) : Option ℚ :=
  if p.hasTopoGreen then p.topoB4 else eeMulC p.rawB4 0.0001

/-- SWIR input to the NDSI: sur_refl_b06_topo when present, else the
raw sur_refl_b07 descaled by 0.0001. -/
def swirBand (p : ClassifyPixel) : Option ℚ :=
  if p.hasTopoSwir then p.topoB6 else eeMulC p.rawB7 0.0001

/-- NDSI = (green - swir) / (green + swir), with the elementwise
division convention. -/
def ndsiOf (green swir : Option ℚ) : Option ℚ :=
  eeDivO (eeSub green swir) (eeAdd green swir)

/-- snow_mask = ndsi.gt(0.4). -/
def snowMaskOf (ndsi : Option ℚ) : Option ℚ := eeGt ndsi 0.4

/-- The NDSI band classify_snow_ice adds. -/
def classifyNDSI (p : ClassifyPixel) : Option ℚ :=
  ndsiOf (greenBand p) (swirBand p)

/-- The snow_mask band classify_snow_ice adds. -/
def classifySnowMask (p : ClassifyPixel) : Option ℚ :=
  snowMaskOf (classifyNDSI p)

/-!
## Narrow-band merge and broadband composition
(methods/ren_method.py, lines 62 to 78 and 268 to 310, coefficients
from config/settings.py)
-/

/-- Merge of one narrow-band albedo band other than band 4:
ice_band.where(snow_mask, snow_band). -/
def mergeNarrowband (iceBand snowMask snowBand : Option ℚ) : Option ℚ :=
  eeWhere iceBand snowMask snowBand

/-- Ice broadband composition of Equation 8 over the six narrowband_
bands of the image, with the ICE_COEFFICIENTS literals. -/
def alpha_ice (n1 n2 n3 n4 n5 n7 : Option ℚ) : Option ℚ :=
  eeAdd (eeAdd (eeAdd (eeAdd (eeAdd (eeAdd (some (-0.0015))
    (eeMulC n1 0.160)) (eeMulC n2 0.291)) (eeMulC n3 0.243))
    (eeMulC n4 0.116)) (eeMulC n5 0.112)) (eeMulC n7 0.081)

/-- Snow broadband composition of Equation 9 over five narrowband_
bands (band 4 absent), with the SNOW_COEFFICIENTS literals. -/
def alpha_snow (n1 n2 n3 n5 n7 : Option ℚ) : Option ℚ :=
  eeAdd (eeAdd (eeAdd (eeAdd (eeAdd (some (-0.0093))
    (eeMulC n1 0.1574)) (eeMulC n2 0.2789)) (eeMulC n3 0.3829))
    (eeMulC n5 0.1131)) (eeMulC n7 0.0694)

/-- Scalar value of the ice composition at a fully valid pixel. -/
def alphaIceVal (x1 x2 x3 x4 x5 x7 : ℚ) : ℚ :=
  -0.0015 + x1 * 0.160 + x2 * 0.291 + x3 * 0.243 + x4 * 0.116
    + x5 * 0.112 + x7 * 0.081

/-- Scalar value of the snow composition at a fully valid pixel. -/
def alphaSnowVal (x1 x2 x3 x5 x7 : ℚ) : ℚ :=
  -0.0093 + x1 * 0.1574 + x2 * 0.2789 + x3 * 0.3829 + x5 * 0.1131
    + x7 * 0.0694

/-- compute_broadband_albedo merged output band:
alpha_ice.where(snow_mask, alpha_snow), the ice result being the base
so its validity mask propagates. -/
def broadband_albedo_ren (snowMask n1 n2 n3 n4 n5 n7 : Option ℚ) : Option ℚ :=
  eeWhere (alpha_ice n1 n2 n3 n4 n5 n7) snowMask (alpha_snow n1 n2 n3 n5 n7)

/-- The broadband_albedo_ren output band of process_ren_method: the
composition applied to the per-band merge of the ice and snow
narrow-band stacks, band 4 taken from the ice stack unconditionally
because the snow stack does not carry it. -/
def renMergedBroadband (m i1 i2 i3 i4 i5 i7 s1 s2 s3 s5 s7 : Option ℚ) :
    Option ℚ :=
  broadband_albedo_ren m
    (mergeNarrowband i1 m s1) (mergeNarrowband i2 m s2)
    (mergeNarrowband i3 m s3) i4
    (mergeNarrowband i5 m s5) (mergeNarrowband i7 m s7)

/-- The ice_albedo output band of process_ren_method: alpha_ice
evaluated on the merged narrow-band stack, not on the pure ice stack. -/
def renIceAlbedoBand (m i1 i2 i3 i4 i5 i7 s1 s2 s3 s5 s7 : Option ℚ) :
    Option ℚ :=
  alpha_ice
    (mergeNarrowband i1 m s1) (mergeNarrowband i2 m s2)
    (mergeNarrowband i3 m s3) i4
    (mergeNarrowband i5 m s5) (mergeNarrowband i7 m s7)

/-!
## BRDF anisotropy term (methods/ren_method.py, lines 190 to 217)

The term is computed with real trigonometry; thetaV is the corrected
sensor zenith in radians, phiRel the relative azimuth in radians.
-/

/-- f tilde = c1 + c2 cos thetaV + c3 cos phiRel + thetaC thetaV. -/
noncomputable def f_tilde (c1 c2 c3 thetaC thetaV phiRel : ℝ) : ℝ :=
  c1 + c2 * Real.cos thetaV + c3 * Real.cos phiRel + thetaC * thetaV

/-- Narrow-band albedo alpha = r_topo - f_tilde. -/
noncomputable def narrowbandAlbedo (rTopo c1 c2 c3 thetaC thetaV phiRel : ℝ) : ℝ :=
  rTopo - f_tilde c1 c2 c3 thetaC thetaV phiRel

/-!
## Topographic correction factor (methods/ren_method.py, lines 138 to 147)

Operands of the factor are the two cosine grids the function has just
computed; the division carries no guard, so only the backend
division-by-zero convention applies.
-/

/-- correction_factor = cos_solar_zenith_corrected.divide(cos solar zenith). -/
def correction_factor (cosSolarZenCorrected cosSolarZen : ℚ) : ℚ :=
  eeDiv cosSolarZenCorrected cosSolarZen

/-- One corrected reflectance pixel: raw band value descaled by 0.0001
then multiplied by the correction factor, unconditionally. -/
def topoCorrectedRefl (rawRefl cosSolarZenCorrected cosSolarZen : ℚ) : ℚ :=
  rawRefl * 0.0001 * correction_factor cosSolarZenCorrected cosSolarZen

/-!
## Theorems
-/

lemma mod09a1Mask_eq_true_iff (ct : ℤ) (as ui : Bool) (cir sim : ℤ)
    (szm : ℚ) (qa : ℕ) (sz : ℤ) :
    mod09a1Mask ct as cir ui sim szm qa sz = true ↔
      (((qa &&& 3 : ℕ) : ℤ) ≤ ct ∧ ((qa &&& 256 : ℕ) : ℤ) ≤ cir ∧
        sim < (snowIceConf qa : ℤ) ∧ (sz : ℚ) * 0.01 < szm ∧
        (as = false → qa &&& 4 = 0) ∧ (ui = true → qa &&& 1024 = 0)) := by
  cases as <;> cases ui <;>
    simp [mod09a1Mask, clearSky, noCirrus, validSnowIce, lowSZA,
      shadowFree, clearInternal] <;> tauto

/-- Claim C2: quality_filter_mod09a1 marks a pixel valid exactly when the
conjunction of its enabled criteria holds (cloud state at most the
threshold, the cirrus criterion, snow and ice confidence above the
minimum, solar zenith below the maximum, plus the shadow-free criterion
unless shadows are allowed and the internal-cloud criterion when
enabled); its strict defaults are (0, shadow excluded, 0, internal
cloud used, confidence above 0, zenith below 70), its relaxed defaults
are (1, shadow excluded, 0, internal cloud unused, confidence above 0,
zenith below 75), and the moderate, maximum and glacier_optimized
presets carry their documented parameter sets. -/
theorem c2_mod09a1_filter_semantics :
    (∀ (ct : ℤ) (as ui : Bool) (cir sim : ℤ) (szm : ℚ) (qa : ℕ) (sz : ℤ),
      mod09a1Mask ct as cir ui sim szm qa sz = true ↔
        (((qa &&& 3 : ℕ) : ℤ) ≤ ct ∧ ((qa &&& 256 : ℕ) : ℤ) ≤ cir ∧
          sim < (snowIceConf qa : ℤ) ∧ (sz : ℚ) * 0.01 < szm ∧
          (as = false → qa &&& 4 = 0) ∧ (ui = true → qa &&& 1024 = 0))) ∧
    (∀ (qa : ℕ) (sz : ℤ),
      quality_filter_mod09a1 false qa sz = mod09a1Mask 0 false 0 true 0 70 qa sz) ∧
    (∀ (qa : ℕ) (sz : ℤ),
      quality_filter_mod09a1 true qa sz = mod09a1Mask 1 false 0 false 0 75 qa sz) ∧
    moderatePreset = (1, false, 1, true, 0, 80) ∧
    maximumPreset = (2, false, 2, false, -1, 85) ∧
    glacierOptimizedPreset = (1, false, 0, false, 0, 75) := by
  refine ⟨fun ct as ui cir sim szm qa sz => mod09a1Mask_eq_true_iff .., ?_, ?_, rfl, rfl, rfl⟩
  · intro qa sz; rfl
  · intro qa sz; rfl

/-- Claim C3: the cirrus criterion of quality_filter_mod09a1 does not
decode a two-bit level from bits 8 and 9; it masks bit 8 alone. The
pixel with state_1km = 4608 (bit 9 set and bit 8 clear, hence two-bit
cirrus level 2, snow and ice confidence 1) passes the cirrus criterion
at threshold 0 and passes the whole strict filter, where the claim, the
function docstring and the product bit layout require rejection. -/
theorem c3_cirrus_bit_nine_ignored :
    (4608 >>> 8) &&& 3 = 2 ∧ noCirrus 0 4608 = true ∧
      quality_filter_mod09a1 false 4608 0 = true := by
  refine ⟨by decide, by decide, ?_⟩
  norm_num [quality_filter_mod09a1, mod09a1Mask, clearSky, noCirrus,
    validSnowIce, lowSZA, shadowFree, clearInternal, snowIceConf]
  decide

/-- Claim C8: the MOD09A1 mask is monotone in the policy parameters:
raising the cloud-state or cirrus thresholds, lowering the snow and ice
minimum, raising the solar zenith maximum, turning shadow allowance on
or turning the internal-cloud criterion off (jointly, hence also one at
a time with the rest fixed) can only keep valid pixels valid. -/
theorem c8_mod09a1_mask_monotone :
    ∀ (ctA ctB cirA cirB simA simB : ℤ) (szmA szmB : ℚ)
      (asA asB uiA uiB : Bool) (qa : ℕ) (sz : ℤ),
      ctA ≤ ctB → cirA ≤ cirB → simB ≤ simA → szmA ≤ szmB →
      (asA = true → asB = true) → (uiB = true → uiA = true) →
      mod09a1Mask ctA asA cirA uiA simA szmA qa sz = true →
      mod09a1Mask ctB asB cirB uiB simB szmB qa sz = true := by
  intro ctA ctB cirA cirB simA simB szmA szmB asA asB uiA uiB qa sz
  intro hct hcir hsim hszm hsh hic hm
  rw [mod09a1Mask_eq_true_iff] at hm ⊢
  obtain ⟨h1, h2, h3, h4, h5, h6⟩ := hm
  refine ⟨le_trans h1 hct, le_trans h2 hcir, lt_of_le_of_lt hsim h3,
    lt_of_lt_of_le h4 hszm, ?_, fun hb => h6 (hic hb)⟩
  intro hbf
  apply h5
  cases asA with
  | false => rfl
  | true => rw [hsh rfl] at hbf; exact absurd hbf (by simp)

/-- Witness for claim C8, relaxing the strict parameters to the relaxed
parameters at the pixel with state_1km = 4096 and SolarZenith = 0. -/
theorem c8_mod09a1_mask_monotone_witness :
    mod09a1Mask 1 false 0 false 0 75 4096 0 = true :=
  c8_mod09a1_mask_monotone 0 1 0 0 0 0 70 75 false false true false 4096 0
    (by decide) (by decide) (by decide) (by norm_num) (by decide) (by decide)
    (by norm_num [mod09a1Mask, clearSky, noCirrus, validSnowIce, lowSZA,
      shadowFree, clearInternal, snowIceConf]; decide)

lemma boolGateAnd_eq_true (b m x : Bool) :
    (if b = true then m && x else m) = true ↔
      (m = true ∧ (b = true → x = true)) := by
  cases b <;> simp

/-- Counterexample for claim C9: quality_filter_mod10a1 is not the
two-band filter the claim describes. At a night pixel (basic QA band
holding the sentinel 211, algorithm flags clear) the mask
quality_filter_mod10a1 computes from its single band under its default
configuration is valid, while the described behaviour, which the
repository implements in create_comprehensive_quality_mask of
mod10a1_method.py (the filter process_mod10a1_method applies), excludes
the pixel; there the night and ocean codes are excluded at every
accepted tier. -/
theorem c9_mod10a1_wrong_function_counterexample :
    mod10a1Mask 1 true true true true true true false true 0 = true ∧
      create_standard_quality_mask 211 0 = false ∧
      get_basic_qa_mask QALevel.all 211 = false ∧
      get_basic_qa_mask QALevel.all 239 = false := by decide

/-- Claim C9 as amended: the described two-band snow-cover filter is
implemented by create_comprehensive_quality_mask in mod10a1_method.py,
whose mask is the basic-tier pass (the level test of the basic QA band,
with the night code 211 and the ocean code 239 always excluded
regardless of the accepted tier) conjoined with every enabled
algorithm-flag exclusion bit of the second band being clear;
quality_filter_mod10a1 itself reads the single algorithm-flags band,
its basic tier being bits 0 and 1 of that same band and its mask the
basic pass conjoined with the enabled flag bits being clear, with no
sentinel handling of its own. -/
theorem c9_mod10a1_two_band_semantics :
    ∀ (level : QALevel) (eIW eVS eND eTH eSW ePC ePL eHZ : Bool)
      (basicQA algQA bm qa : ℕ),
      (create_comprehensive_quality_mask level eIW eVS eND eTH eSW ePC ePL eHZ
          basicQA algQA = true ↔
        (basicLevelPass level basicQA = true ∧ basicQA ≠ 211 ∧ basicQA ≠ 239 ∧
          (eIW = true → algQA &&& 1 = 0) ∧ (eVS = true → algQA &&& 2 = 0) ∧
          (eND = true → algQA &&& 4 = 0) ∧ (eTH = true → algQA &&& 8 = 0) ∧
          (eSW = true → algQA &&& 16 = 0) ∧ (ePC = true → algQA &&& 32 = 0) ∧
          (ePL = true → algQA &&& 64 = 0) ∧ (eHZ = true → algQA &&& 128 = 0))) ∧
      (mod10a1Mask bm eIW eVS eND eTH eSW ePC ePL eHZ qa = true ↔
        (qa &&& 3 ≤ bm ∧
          (eIW = true → qa &&& 1 = 0) ∧ (eVS = true → qa &&& 2 = 0) ∧
          (eND = true → qa &&& 4 = 0) ∧ (eTH = true → qa &&& 8 = 0) ∧
          (eSW = true → qa &&& 16 = 0) ∧ (ePC = true → qa &&& 32 = 0) ∧
          (ePL = true → qa &&& 64 = 0) ∧ (eHZ = true → qa &&& 128 = 0))) := by
  intro level eIW eVS eND eTH eSW ePC ePL eHZ basicQA algQA bm qa
  constructor
  · simp only [create_comprehensive_quality_mask, get_basic_qa_mask,
      get_algorithm_flags_mask, boolGateAnd_eq_true, Bool.and_eq_true,
      decide_eq_true_eq]
    tauto
  · simp only [mod10a1Mask, boolGateAnd_eq_true, decide_eq_true_eq]
    tauto

/-- Witness for claim C9 as amended, at the standard configuration, a
best-quality basic pixel and an algorithm-flags word setting only the
probably-clear bit. -/
theorem c9_mod10a1_two_band_semantics_witness :
    (create_comprehensive_quality_mask QALevel.good
        true true true true true true false true 0 64 = true ↔
      (basicLevelPass QALevel.good 0 = true ∧ (0 : ℕ) ≠ 211 ∧ (0 : ℕ) ≠ 239 ∧
        (true = true → 64 &&& 1 = 0) ∧ (true = true → 64 &&& 2 = 0) ∧
        (true = true → 64 &&& 4 = 0) ∧ (true = true → 64 &&& 8 = 0) ∧
        (true = true → 64 &&& 16 = 0) ∧ (true = true → 64 &&& 32 = 0) ∧
        (false = true → 64 &&& 64 = 0) ∧ (true = true → 64 &&& 128 = 0))) ∧
    (mod10a1Mask 1 true true true true true true false true 64 = true ↔
      (64 &&& 3 ≤ 1 ∧
        (true = true → 64 &&& 1 = 0) ∧ (true = true → 64 &&& 2 = 0) ∧
        (true = true → 64 &&& 4 = 0) ∧ (true = true → 64 &&& 8 = 0) ∧
        (true = true → 64 &&& 16 = 0) ∧ (true = true → 64 &&& 32 = 0) ∧
        (false = true → 64 &&& 64 = 0) ∧ (true = true → 64 &&& 128 = 0))) :=
  c9_mod10a1_two_band_semantics QALevel.good true true true true true true
    false true 0 64 1 64

/-- Pixel carrying topography-corrected green 0.5 and SWIR 0.1 and raw
bands that would classify oppositely, showing the corrected bands are
preferred. -/
def pixTopoSnow : ClassifyPixel := ⟨true, true, some 0.5, some 0.1, some 1000, some 5000⟩

/-- Pixel carrying topography-corrected green 0.1 and SWIR 0.5. -/
def pixTopoIce : ClassifyPixel := ⟨true, true, some 0.1, some 0.5, some 5000, some 1000⟩

/-- Pixel without the corrected bands, with raw scaled integers 5000
and 1000, descaled by the fallback to green 0.5 and SWIR 0.1. -/
def pixRawFallback : ClassifyPixel := ⟨false, false, none, none, some 5000, some 1000⟩

/-- Claim C4: the snow mask equals NDSI.gt(0.4) pixelwise; the NDSI of
classify_snow_ice prefers the topography-corrected bands when the image
carries them (pixTopoSnow, whose raw bands would give the opposite
label) and falls back to the raw descaled bands otherwise
(pixRawFallback); with green 0.5 and SWIR 0.1 the NDSI is 2/3 (snow)
and with green 0.1 and SWIR 0.5 it is -2/3 (not snow). -/
theorem c4_ndsi_classification :
    (∀ (p : ClassifyPixel) (n : ℚ), classifyNDSI p = some n →
      classifySnowMask p = some (if (0.4 : ℚ) < n then 1 else 0)) ∧
    classifyNDSI pixTopoSnow = some (2/3) ∧
    classifySnowMask pixTopoSnow = some 1 ∧
    classifyNDSI pixTopoIce = some (-(2/3)) ∧
    classifySnowMask pixTopoIce = some 0 ∧
    classifyNDSI pixRawFallback = some (2/3) ∧
    classifySnowMask pixRawFallback = some 1 := by
  have hsnow : ∀ (p : ClassifyPixel) (n : ℚ), classifyNDSI p = some n →
      classifySnowMask p = some (if (0.4 : ℚ) < n then 1 else 0) := by
    intro p n h
    simp [classifySnowMask, snowMaskOf, eeGt, h]
  have h1 : classifyNDSI pixTopoSnow = some (2/3) := by
    simp [classifyNDSI, pixTopoSnow, greenBand, swirBand, ndsiOf,
      eeDivO, eeSub, eeAdd, opt2, eeDiv]
    norm_num
  have h2 : classifyNDSI pixTopoIce = some (-(2/3)) := by
    simp [classifyNDSI, pixTopoIce, greenBand, swirBand, ndsiOf,
      eeDivO, eeSub, eeAdd, opt2, eeDiv]
    norm_num
  have h3 : classifyNDSI pixRawFallback = some (2/3) := by
    simp [classifyNDSI, pixRawFallback, greenBand, swirBand, ndsiOf,
      eeDivO, eeSub, eeAdd, opt2, eeDiv, eeMulC]
    norm_num
  refine ⟨hsnow, h1, ?_, h2, ?_, h3, ?_⟩
  · rw [hsnow pixTopoSnow (2/3) h1]; norm_num
  · rw [hsnow pixTopoIce (-(2/3)) h2]; norm_num
  · rw [hsnow pixRawFallback (2/3) h3]; norm_num

/-- Witness for claim C4, using its universally quantified conjunct on
the fallback pixel. -/
theorem c4_ndsi_classification_witness :
    classifySnowMask pixRawFallback = some (if (0.4 : ℚ) < 2/3 then 1 else 0) :=
  c4_ndsi_classification.1 pixRawFallback (2/3)
    (c4_ndsi_classification.2.2.2.2.2.1)

/-- Counterexample for claim C7: at a pixel where green and SWIR are
valid and sum to zero, the NDSI band is not masked; it is the valid
value 0 produced by the division convention. -/
theorem c7_ndsi_zero_denominator_counterexample :
    ndsiOf (some 0) (some 0) ≠ none ∧ ndsiOf (some 0) (some 0) = some 0 := by
  constructor <;> simp [ndsiOf, eeDivO, eeSub, eeAdd, opt2, eeDiv]

/-- Claim C7 as amended: for every pixel at which green plus SWIR is
zero, the NDSI division follows the backend division-by-zero convention
and yields the valid value 0, so the pixel classifies as not snow; no
NaN or error value propagates. -/
theorem c7_ndsi_zero_denominator :
    ∀ g s : ℚ, g + s = 0 →
      ndsiOf (some g) (some s) = some 0 ∧
        snowMaskOf (ndsiOf (some g) (some s)) = some 0 := by
  intro g s h
  have hn : ndsiOf (some g) (some s) = some 0 := by
    simp [ndsiOf, eeDivO, eeSub, eeAdd, opt2, eeDiv, h]
  refine ⟨hn, ?_⟩
  rw [hn]
  simp [snowMaskOf, eeGt]
  norm_num

/-- Witness for claim C7 as amended, at green 1 and SWIR -1. -/
theorem c7_ndsi_zero_denominator_witness :
    ndsiOf (some 1) (some (-1)) = some 0 ∧
      snowMaskOf (ndsiOf (some 1) (some (-1))) = some 0 :=
  c7_ndsi_zero_denominator 1 (-1) (by norm_num)

/-- Claim C1: at a fully valid pixel the broadband_albedo_ren band of
process_ren_method equals the snow composition over the snow-model
narrow bands where the snow mask is nonzero and the ice composition
over the ice-model narrow bands where it is zero; band 4 enters only
through the ice stack, the merge taking it from the ice model
unconditionally; and the ice result is the where base, so a masked ice
narrow band masks the output. -/
theorem c1_broadband_merge :
    ∀ (mv i1v i2v i3v i4v i5v i7v s1v s2v s3v s5v s7v : ℚ),
      (mv ≠ 0 →
        renMergedBroadband (some mv) (some i1v) (some i2v) (some i3v)
          (some i4v) (some i5v) (some i7v) (some s1v) (some s2v)
          (some s3v) (some s5v) (some s7v) =
          some (alphaSnowVal s1v s2v s3v s5v s7v)) ∧
      (mv = 0 →
        renMergedBroadband (some mv) (some i1v) (some i2v) (some i3v)
          (some i4v) (some i5v) (some i7v) (some s1v) (some s2v)
          (some s3v) (some s5v) (some s7v) =
          some (alphaIceVal i1v i2v i3v i4v i5v i7v)) ∧
      renMergedBroadband (some mv) none (some i2v) (some i3v)
        (some i4v) (some i5v) (some i7v) (some s1v) (some s2v)
        (some s3v) (some s5v) (some s7v) = none := by
  intro mv i1v i2v i3v i4v i5v i7v s1v s2v s3v s5v s7v
  refine ⟨?_, ?_, ?_⟩
  · intro h
    simp [renMergedBroadband, broadband_albedo_ren, mergeNarrowband,
      eeWhere, h, alpha_ice, alpha_snow, eeAdd, eeMulC, opt2,
      alphaSnowVal]
  · intro h
    subst h
    simp [renMergedBroadband, broadband_albedo_ren, mergeNarrowband,
      eeWhere, alpha_ice, alpha_snow, eeAdd, eeMulC, opt2, alphaIceVal]
  · simp [renMergedBroadband, broadband_albedo_ren, mergeNarrowband,
      eeWhere, alpha_ice, eeAdd, eeMulC, opt2]

/-- Witness for claim C1 at a snow pixel with all bands valid. -/
theorem c1_broadband_merge_witness :
    renMergedBroadband (some 1) (some 1) (some 1) (some 1) (some 1)
      (some 1) (some 1) (some 2) (some 2) (some 2) (some 2) (some 2) =
      some (alphaSnowVal 2 2 2 2 2) :=
  (c1_broadband_merge 1 1 1 1 1 1 1 2 2 2 2 2).1 (by norm_num)

/-- Claim C10: the ice_albedo output band is the ice composition over
the merged narrow bands, so at a snow-classified valid pixel it applies
the ice regression to the snow-model values of bands 1, 2, 3, 5 and 7
together with the ice-model band 4, and only at a non-snow pixel is it
the ice composition over the ice-model values. -/
theorem c10_ice_albedo_band :
    ∀ (mv i1v i2v i3v i4v i5v i7v s1v s2v s3v s5v s7v : ℚ),
      (mv ≠ 0 →
        renIceAlbedoBand (some mv) (some i1v) (some i2v) (some i3v)
          (some i4v) (some i5v) (some i7v) (some s1v) (some s2v)
          (some s3v) (some s5v) (some s7v) =
          some (alphaIceVal s1v s2v s3v i4v s5v s7v)) ∧
      (mv = 0 →
        renIceAlbedoBand (some mv) (some i1v) (some i2v) (some i3v)
          (some i4v) (some i5v) (some i7v) (some s1v) (some s2v)
          (some s3v) (some s5v) (some s7v) =
          some (alphaIceVal i1v i2v i3v i4v i5v i7v)) := by
  intro mv i1v i2v i3v i4v i5v i7v s1v s2v s3v s5v s7v
  refine ⟨?_, ?_⟩
  · intro h
    simp [renIceAlbedoBand, mergeNarrowband, eeWhere, h, alpha_ice,
      eeAdd, eeMulC, opt2, alphaIceVal]
  · intro h
    subst h
    simp [renIceAlbedoBand, mergeNarrowband, eeWhere, alpha_ice,
      eeAdd, eeMulC, opt2, alphaIceVal]

/-- Witness for claim C10 at a snow pixel with all bands valid. -/
theorem c10_ice_albedo_band_witness :
    renIceAlbedoBand (some 1) (some 1) (some 1) (some 1) (some 7)
      (some 1) (some 1) (some 2) (some 2) (some 2) (some 2) (some 2) =
      some (alphaIceVal 2 2 2 7 2 2) :=
  (c10_ice_albedo_band 1 1 1 1 7 1 1 2 2 2 2 2).1 (by norm_num)

/-- Counterexample for claim C5: with the band 1 snow BRDF coefficient
literals and both angles zero, the anisotropy term is 0.00919, the sum
of all three cosine-weighted coefficients, and not c1 + c2 = 0.00467. -/
theorem c5_f_tilde_counterexample :
    f_tilde 0.00083 0.00384 0.00452 0.34527 0 0 = 0.00919 ∧
      (0.00919 : ℝ) ≠ 0.00083 + 0.00384 := by
  constructor
  · simp [f_tilde, Real.cos_zero]
    norm_num
  · norm_num

/-- Claim C5 as amended: for corrected sensor zenith zero and relative
azimuth zero, both cosines are one and the linear zenith term vanishes,
so the anisotropy term equals c1 + c2 + c3 exactly and the narrow-band
albedo equals the corrected reflectance minus (c1 + c2 + c3). -/
theorem c5_f_tilde_at_nadir :
    ∀ (c1 c2 c3 thetaC r : ℝ),
      f_tilde c1 c2 c3 thetaC 0 0 = c1 + c2 + c3 ∧
        narrowbandAlbedo r c1 c2 c3 thetaC 0 0 = r - (c1 + c2 + c3) := by
  intro c1 c2 c3 thetaC r
  constructor <;> simp [narrowbandAlbedo, f_tilde, Real.cos_zero]

/-- Claim C6 evaluation: the correction-factor division carries no
guard. At corrected solar cosine 1 and solar cosine 0 the factor is the
division-convention value 0 and the corrected reflectance of the valid
raw value 3000 is an unmasked spurious 0; at solar cosine 1/1000 the
unbounded factor 1000 is applied as is, turning reflectance 0.3 into
300. -/
theorem c6_unguarded_correction_factor :
    correction_factor 1 0 = 0 ∧ topoCorrectedRefl 3000 1 0 = 0 ∧
      correction_factor 1 (1/1000) = 1000 ∧
      topoCorrectedRefl 3000 1 (1/1000) = 300 := by
  refine ⟨?_, ?_, ?_, ?_⟩ <;>
    norm_num [topoCorrectedRefl, correction_factor, eeDiv]

/-- Witness for claim C2, instantiating the strict-default conjunct at
a concrete pixel. -/
theorem c2_mod09a1_filter_semantics_witness :
    quality_filter_mod09a1 false 4096 0 = mod09a1Mask 0 false 0 true 0 70 4096 0 :=
  c2_mod09a1_filter_semantics.2.1 4096 0

/-- Witness for claim C5 as amended, at concrete coefficient values. -/
theorem c5_f_tilde_at_nadir_witness :
    f_tilde 1 2 3 4 0 0 = 1 + 2 + 3 ∧
      narrowbandAlbedo 5 1 2 3 4 0 0 = 5 - (1 + 2 + 3) :=
  c5_f_tilde_at_nadir 1 2 3 4 5
